import Mathlib

/-!
Shallow embedding of the OpenShock-GD mod's configuration-loading and
request-building core (`src/src/main.cpp`).

The embedding covers the functional core: `readConfig` (including the
`writeReadme` call and the diagnostics it emits), `generateRandomValue`,
and `sendPostRequest`.  Host-engine plumbing (the death-effect hook, the
popup renderer, the pause mechanism, the asynchronous response listener)
is out of the embedded core; the popup/log calls the core makes are
recorded as effects in an explicit trace, and the dispatch of the web
request is recorded as a `dispatch` effect carrying the built request.

A parsed `settings.json` document is modelled as a `ConfigDoc`: each field
the code reads via `json::value(key, default)` is an `Option` (present or
absent), and `otherFieldCount` counts unrecognized keys so that
`json::empty()` on the parsed object is representable.  The model covers
well-typed documents (each present key holds a value of the type the code
extracts); `nlohmann::json` would throw on a type mismatch, which no claim
exercises.  The file-system outcomes that precede parsing are the three
constructors of `ParseInput`: the file fails to open, the file opens but
JSON parsing throws (with the exception's message), or a document parses.
-/

namespace OpenShockGD

/-- A JSON value, as used for the request body built by `sendPostRequest`. -/
inductive JVal where
  | str (s : String)
  | int (n : Int)
  | bool (b : Bool)
  | arr (elems : List JVal)
  | obj (fields : List (String × JVal))

/-- A parsed `settings.json` object.  Each field the code extracts with
`json::value(key, default)` is `some v` when the key is present and `none`
when absent; `otherFieldCount` is the number of keys the code never reads
(they matter only for `json::empty()`). -/
structure ConfigDoc where
  shockerID : Option String
  openShockToken : Option String
  customName : Option String
  minDuration : Option Int
  maxDuration : Option Int
  minIntensity : Option Int
  maxIntensity : Option Int
  endpointDomain : Option String
  otherFieldCount : Nat
deriving DecidableEq

/-- `json::empty()` on the parsed object: no recognized key present and no
unrecognized key either. -/
def ConfigDoc.isEmpty (d : ConfigDoc) : Bool :=
  d.shockerID.isNone && d.openShockToken.isNone && d.customName.isNone &&
    d.minDuration.isNone && d.maxDuration.isNone && d.minIntensity.isNone &&
    d.maxIntensity.isNone && d.endpointDomain.isNone && d.otherFieldCount == 0

/-- The outcome of opening and parsing `settings.json`, the input state of
one trigger: the file is missing, the JSON parser throws (carrying
`e.what()`), or a document parses. -/
inductive ParseInput where
  | missingFile
  | malformedJson (ewhat : String)
  | doc (d : ConfigDoc)
deriving DecidableEq

/-- The web request built by `sendPostRequest`: method, URL, headers in the
order the code sets them, and the JSON body (the value serialized by
`requestBody.dump()`). -/
structure WebRequest where
  method : String
  url : String
  headers : List (String × String)
  body : JVal

/-- One externally visible step of the core: the `writeReadme()` call, the
attempt to open `settings.json`, a `log::error`, a `showPopupMessage`, a
random draw `generateRandomValue(lo, hi) = value`, or handing the built
request to the web layer (`m_listener.setFilter(req.post(url))`). -/
inductive Effect where
  | writeReadme
  | openConfigFile
  | logError (msg : String)
  | popup (msg : String)
  | draw (lo hi value : Int)
  | dispatch (req : WebRequest)

/-- `" Read readme.txt in the mod's config folder."`, the shared popup tail. -/
def readmeNote : String := " Read readme.txt in the mod's config folder."

def missingFilePopup : String := "Error: Missing config file!" ++ readmeNote

def invalidConfigPopup : String := "Error: Invalid config file!" ++ readmeNote

def missingFieldsPopup : String :=
  "Error: Missing required fields in config file!" ++ readmeNote

def missingFileLog : String := "Failed to open settings.json file in config directory"

def parseErrorLog (ewhat : String) : String := "Error parsing JSON file: " ++ ewhat

def durationRangeLog (minDuration maxDuration : Int) : String :=
  "Invalid duration range in config: minDuration=" ++ toString minDuration ++
    ", maxDuration=" ++ toString maxDuration

def intensityRangeLog (minIntensity maxIntensity : Int) : String :=
  "Invalid intensity range in config: minIntensity=" ++ toString minIntensity ++
    ", maxIntensity=" ++ toString maxIntensity

def missingFieldsLog : String := "Missing required fields in JSON configuration"

/-- The duration validation condition of `readConfig`:
`minDuration < 300 || maxDuration > 30000 || minDuration > maxDuration`,
on the extracted-with-default values. -/
def durRangeInvalid (d : ConfigDoc) : Bool :=
  d.minDuration.getD 300 < 300 || d.maxDuration.getD 30000 > 30000 ||
    d.minDuration.getD 300 > d.maxDuration.getD 30000

/-- The intensity validation condition of `readConfig`:
`minIntensity < 1 || maxIntensity > 100 || minIntensity > maxIntensity`. -/
def intRangeInvalid (d : ConfigDoc) : Bool :=
  d.minIntensity.getD 1 < 1 || d.maxIntensity.getD 100 > 100 ||
    d.minIntensity.getD 1 > d.maxIntensity.getD 100

/-- `readConfig()`: writes the readme, opens and parses `settings.json`,
validates the duration range then the intensity range, and returns the
parsed document on success.  Every failure path returns the
default-constructed json (`return {}`), modelled as `none`, after logging
and popping up the corresponding diagnostic.  The first component is the
trace of effects performed. -/
def readConfig : ParseInput → List Effect × Option ConfigDoc
  | .missingFile =>
      ([.writeReadme, .openConfigFile, .logError missingFileLog,
        .popup missingFilePopup], none)
  | .malformedJson ewhat =>
      ([.writeReadme, .openConfigFile, .logError (parseErrorLog ewhat),
        .popup invalidConfigPopup], none)
  | .doc d =>
      if durRangeInvalid d then
        ([.writeReadme, .openConfigFile,
          .logError (durationRangeLog (d.minDuration.getD 300) (d.maxDuration.getD 30000)),
          .popup invalidConfigPopup], none)
      else if intRangeInvalid d then
        ([.writeReadme, .openConfigFile,
          .logError (intensityRangeLog (d.minIntensity.getD 1) (d.maxIntensity.getD 100)),
          .popup invalidConfigPopup], none)
      else
        ([.writeReadme, .openConfigFile], some d)

/-- `json::empty()` applied to what `readConfig` returned: the
default-constructed failure sentinel is empty, and a parsed document is
empty when the object has no keys. -/
def jsonEmpty : Option ConfigDoc → Bool
  | none => true
  | some d => d.isEmpty

/-- `generateRandomValue(min, max)`: the code draws
`std::uniform_int_distribution<>(min, max)(gen)` from a freshly seeded
`mt19937`.  The distribution's contract is a uniform draw from the
inclusive range `[min, max]`; `entropy` abstracts the generator state, and
every value of the range is realized by some entropy. -/
def generateRandomValue (entropy : Nat) (min max : Int) : Int :=
  min + ((entropy % (max - min + 1).toNat : Nat) : Int)

/-- The JSON request body literal of `sendPostRequest`:
`{"shocks": [{"id": shockerID, "type": "Shock", "intensity": I,
"duration": D, "exclusive": true}], "customName": customName}`. -/
def requestBody (shockerID customName : String) (intensity duration : Int) : JVal :=
  .obj [("shocks", .arr [.obj [("id", .str shockerID), ("type", .str "Shock"),
          ("intensity", .int intensity), ("duration", .int duration),
          ("exclusive", .bool true)]]),
        ("customName", .str customName)]

/-- `sendPostRequest()` for one trigger: reads the config, returns silently
when the returned json is empty, extracts the fields with defaults,
normalizes `endpointDomain`, rejects missing required string fields, and
otherwise draws intensity and duration (entropies `eI`, `eD`), builds the
POST request, dispatches it, and pops up the duration/intensity message.
The result is the trace of effects performed. -/
def sendPostRequest (input : ParseInput) (eI eD : Nat) : List Effect :=
  let r := readConfig input
  match r.2 with
  | none => r.1
  | some config =>
    if config.isEmpty then r.1
    else
      let minDuration := config.minDuration.getD 300
      let maxDuration := config.maxDuration.getD 30000
      let minIntensity := config.minIntensity.getD 1
      let maxIntensity := config.maxIntensity.getD 100
      let shockerID := config.shockerID.getD ""
      let openShockToken := config.openShockToken.getD ""
      let customName := config.customName.getD ""
      let endpointDomain0 := config.endpointDomain.getD "api.openshock.app"
      let endpointDomain := if endpointDomain0 = "" then "api.openshock.app" else endpointDomain0
      if shockerID = "" ∨ openShockToken = "" ∨ customName = "" then
        r.1 ++ [.logError missingFieldsLog, .popup missingFieldsPopup]
      else
        let randomIntensity := generateRandomValue eI minIntensity maxIntensity
        let randomDurationMs := generateRandomValue eD minDuration maxDuration
        let req : WebRequest :=
          { method := "POST"
            url := "https://" ++ endpointDomain ++ "/2/shockers/control"
            headers := [("Content-Type", "application/json"),
                        ("accept", "application/json"),
                        ("OpenShockToken", openShockToken)]
            body := requestBody shockerID customName randomIntensity randomDurationMs }
        r.1 ++ [.draw minIntensity maxIntensity randomIntensity,
                .draw minDuration maxDuration randomDurationMs,
                .dispatch req,
                .popup ("Duration: " ++ toString (randomDurationMs.tdiv 1000) ++ "s" ++
                        "     " ++ "Intensity: " ++ toString randomIntensity)]

/-- The parsed empty object `{}`. -/
def emptyDoc : ConfigDoc := ⟨none, none, none, none, none, none, none, none, 0⟩

/-- Any draw of `generateRandomValue` with ordered bounds stays in the inclusive
range, and equal bounds force the single value, for every entropy. -/
theorem generateRandomValue_bounds (e : Nat) (lo hi : Int) (h : lo ≤ hi) :
    lo ≤ generateRandomValue e lo hi ∧ generateRandomValue e lo hi ≤ hi ∧
      (lo = hi → generateRandomValue e lo hi = lo) := by
  unfold generateRandomValue
  have hlt : e % (hi - lo + 1).toNat < (hi - lo + 1).toNat := Nat.mod_lt _ (by omega)
  refine ⟨by omega, by omega, fun he => by subst he; omega⟩

/-- Two strings differing at character index 8 differ. -/
theorem ne_of_data8 (s t : String) (h : s.data[8]? ≠ t.data[8]?) : s ≠ t :=
  fun he => h (by rw [he])

/-- The duration-range diagnostic is never the intensity-range diagnostic,
whatever the embedded numbers: they differ at character index 8. -/
theorem durationRangeLog_ne_intensityRangeLog (a b x y : Int) :
    durationRangeLog a b ≠ intensityRangeLog x y := by
  apply ne_of_data8
  have hd : (durationRangeLog a b).data[8]? = some 'd' := by
    simp only [durationRangeLog, String.data_append]
    rw [List.getElem?_append, List.getElem?_append, List.getElem?_append]
    rfl
  have hi : (intensityRangeLog x y).data[8]? = some 'i' := by
    simp only [intensityRangeLog, String.data_append]
    rw [List.getElem?_append, List.getElem?_append, List.getElem?_append]
    rfl
  rw [hd, hi]
  decide

/-- Claim C1: every intensity or duration drawn by the request builder lies in
its inclusive configured range — any `draw lo hi v` effect in a trigger's trace
has `lo ≤ v ≤ hi` — and when the two bounds coincide the draw returns that
single value. -/
theorem drawn_values_within_bounds (input : ParseInput) (eI eD : Nat) (lo hi v : Int)
    (h : Effect.draw lo hi v ∈ sendPostRequest input eI eD) :
    lo ≤ v ∧ v ≤ hi ∧ (lo = hi → v = lo) := by
  cases input with
  | missingFile => simp [sendPostRequest, readConfig] at h
  | malformedJson s => simp [sendPostRequest, readConfig] at h
  | doc d =>
    by_cases hd : durRangeInvalid d = true
    · simp [sendPostRequest, readConfig, hd] at h
    · by_cases hin : intRangeInvalid d = true
      · simp [sendPostRequest, readConfig, hd, hin] at h
      · rw [Bool.not_eq_true] at hd hin
        simp only [sendPostRequest, readConfig, hd, hin, Bool.false_eq_true,
          if_false] at h
        split at h
        · simp at h
        · split at h
          · simp at h
          · simp [requestBody] at h
            simp only [durRangeInvalid, Bool.or_eq_false_iff,
              decide_eq_false_iff_not, not_lt] at hd
            simp only [intRangeInvalid, Bool.or_eq_false_iff,
              decide_eq_false_iff_not, not_lt] at hin
            rcases h with ⟨h1, h2, h3⟩ | ⟨h1, h2, h3⟩
            · subst h1; subst h2; subst h3
              exact generateRandomValue_bounds eI _ _ (by omega)
            · subst h1; subst h2; subst h3
              exact generateRandomValue_bounds eD _ _ (by omega)

/-- Witness for claim C1: a valid three-field configuration with entropy 0
draws intensity 1 from the default range [1, 100]. -/
theorem drawn_values_within_bounds_witness :
    (1 : Int) ≤ 1 ∧ (1 : Int) ≤ 100 ∧ ((1 : Int) = 100 → (1 : Int) = 1) :=
  drawn_values_within_bounds
    (.doc ⟨some "abc", some "tok", some "X", none, none, none, none, none, 0⟩) 0 0 1 100 1
    (by simp [sendPostRequest, readConfig, durRangeInvalid, intRangeInvalid,
      ConfigDoc.isEmpty, generateRandomValue])

/-- Claim C2: a configuration whose extracted duration bounds violate
`minDuration ≥ 300`, `maxDuration ≤ 30000`, or `minDuration ≤ maxDuration`
makes `readConfig` fail with the invalid-duration-range diagnostic and the
empty sentinel, and the trigger neither draws a random value nor dispatches a
request. -/
theorem invalid_duration_rejected (d : ConfigDoc) (eI eD : Nat)
    (h : d.minDuration.getD 300 < 300 ∨ d.maxDuration.getD 30000 > 30000 ∨
      d.minDuration.getD 300 > d.maxDuration.getD 30000) :
    readConfig (.doc d) =
      ([.writeReadme, .openConfigFile,
        .logError (durationRangeLog (d.minDuration.getD 300) (d.maxDuration.getD 30000)),
        .popup invalidConfigPopup], none) ∧
    (∀ lo hi v, Effect.draw lo hi v ∉ sendPostRequest (.doc d) eI eD) ∧
    (∀ req, Effect.dispatch req ∉ sendPostRequest (.doc d) eI eD) := by
  have hb : durRangeInvalid d = true := by
    simp only [durRangeInvalid, Bool.or_eq_true, decide_eq_true_eq]
    omega
  refine ⟨by simp [readConfig, hb], ?_, ?_⟩
  · intro lo hi v
    simp [sendPostRequest, readConfig, hb]
  · intro req
    simp [sendPostRequest, readConfig, hb]

/-- Witness for claim C2: `minDuration = 100` is rejected with the
duration-range diagnostic and no draw or dispatch happens. -/
theorem invalid_duration_rejected_witness :
    readConfig (.doc ⟨none, none, none, some 100, none, none, none, none, 0⟩) =
      ([.writeReadme, .openConfigFile, .logError (durationRangeLog 100 30000),
        .popup invalidConfigPopup], none) ∧
    (∀ lo hi v, Effect.draw lo hi v ∉
      sendPostRequest (.doc ⟨none, none, none, some 100, none, none, none, none, 0⟩) 0 0) ∧
    (∀ req, Effect.dispatch req ∉
      sendPostRequest (.doc ⟨none, none, none, some 100, none, none, none, none, 0⟩) 0 0) :=
  invalid_duration_rejected ⟨none, none, none, some 100, none, none, none, none, 0⟩ 0 0
    (by decide)

/-- Claim C3: a configuration whose extracted intensity bounds violate
`minIntensity ≥ 1`, `maxIntensity ≤ 100`, or `minIntensity ≤ maxIntensity`
makes `readConfig` return the empty sentinel; when the duration bounds are
valid the failure carries the intensity diagnostic, and when the duration
bounds are also violated the duration check fires first, so the failure
carries the duration diagnostic and no intensity diagnostic appears. -/
theorem invalid_intensity_checked_after_duration (d : ConfigDoc)
    (h : d.minIntensity.getD 1 < 1 ∨ d.maxIntensity.getD 100 > 100 ∨
      d.minIntensity.getD 1 > d.maxIntensity.getD 100) :
    (readConfig (.doc d)).2 = none ∧
    (¬(d.minDuration.getD 300 < 300 ∨ d.maxDuration.getD 30000 > 30000 ∨
        d.minDuration.getD 300 > d.maxDuration.getD 30000) →
      readConfig (.doc d) =
        ([.writeReadme, .openConfigFile,
          .logError (intensityRangeLog (d.minIntensity.getD 1) (d.maxIntensity.getD 100)),
          .popup invalidConfigPopup], none)) ∧
    ((d.minDuration.getD 300 < 300 ∨ d.maxDuration.getD 30000 > 30000 ∨
        d.minDuration.getD 300 > d.maxDuration.getD 30000) →
      readConfig (.doc d) =
        ([.writeReadme, .openConfigFile,
          .logError (durationRangeLog (d.minDuration.getD 300) (d.maxDuration.getD 30000)),
          .popup invalidConfigPopup], none) ∧
      ∀ x y, Effect.logError (intensityRangeLog x y) ∉ (readConfig (.doc d)).1) := by
  have hbi : intRangeInvalid d = true := by
    simp only [intRangeInvalid, Bool.or_eq_true, decide_eq_true_eq]
    omega
  refine ⟨?_, ?_, ?_⟩
  · by_cases hb : durRangeInvalid d = true
    · simp [readConfig, hb]
    · rw [Bool.not_eq_true] at hb
      simp [readConfig, hb, hbi]
  · intro hdur
    have hb : durRangeInvalid d = false := by
      simp only [durRangeInvalid, Bool.or_eq_false_iff, decide_eq_false_iff_not]
      omega
    simp [readConfig, hb, hbi]
  · intro hdur
    have hb : durRangeInvalid d = true := by
      simp only [durRangeInvalid, Bool.or_eq_true, decide_eq_true_eq]
      omega
    refine ⟨by simp [readConfig, hb], ?_⟩
    intro x y
    simp only [readConfig, hb, if_true]
    intro hmem
    simp only [List.mem_cons, List.not_mem_nil, or_false] at hmem
    rcases hmem with hmem | hmem | hmem | hmem
    · exact Effect.noConfusion hmem
    · exact Effect.noConfusion hmem
    · exact durationRangeLog_ne_intensityRangeLog _ _ x y
        (Effect.logError.inj hmem).symm
    · exact Effect.noConfusion hmem

/-- Witness for claim C3: a configuration violating both groups
(`minDuration = 100`, `maxIntensity = 150`) fails with the duration
diagnostic and carries no intensity diagnostic. -/
theorem invalid_intensity_checked_after_duration_witness :
    (readConfig (.doc ⟨none, none, none, some 100, none, none, some 150, none, 0⟩)).2 = none ∧
    (¬((100 : Int) < 300 ∨ (30000 : Int) > 30000 ∨ (100 : Int) > 30000) →
      readConfig (.doc ⟨none, none, none, some 100, none, none, some 150, none, 0⟩) =
        ([.writeReadme, .openConfigFile, .logError (intensityRangeLog 1 150),
          .popup invalidConfigPopup], none)) ∧
    (((100 : Int) < 300 ∨ (30000 : Int) > 30000 ∨ (100 : Int) > 30000) →
      readConfig (.doc ⟨none, none, none, some 100, none, none, some 150, none, 0⟩) =
        ([.writeReadme, .openConfigFile, .logError (durationRangeLog 100 30000),
          .popup invalidConfigPopup], none) ∧
      ∀ x y, Effect.logError (intensityRangeLog x y) ∉
        (readConfig (.doc ⟨none, none, none, some 100, none, none, some 150, none, 0⟩)).1) :=
  invalid_intensity_checked_after_duration
    ⟨none, none, none, some 100, none, none, some 150, none, 0⟩ (by decide)

/-- Claim C4 counterexample: the parsed empty object `{}` has all three
required string fields missing, yet the trigger returns silently — the trace
holds no MissingRequiredField popup, no log, and no dispatched request — so
the claim fails at this document. -/
theorem empty_doc_missing_fields_silent :
    emptyDoc.shockerID = none ∧ emptyDoc.openShockToken = none ∧
    emptyDoc.customName = none ∧
    sendPostRequest (.doc emptyDoc) 0 0 = [.writeReadme, .openConfigFile] ∧
    Effect.popup missingFieldsPopup ∉ sendPostRequest (.doc emptyDoc) 0 0 ∧
    Effect.logError missingFieldsLog ∉ sendPostRequest (.doc emptyDoc) 0 0 ∧
    (∀ req, Effect.dispatch req ∉ sendPostRequest (.doc emptyDoc) 0 0) := by
  refine ⟨rfl, rfl, rfl, rfl, ?_, ?_, ?_⟩
  · simp [sendPostRequest, readConfig, emptyDoc, durRangeInvalid, intRangeInvalid,
      ConfigDoc.isEmpty]
  · simp [sendPostRequest, readConfig, emptyDoc, durRangeInvalid, intRangeInvalid,
      ConfigDoc.isEmpty]
  · intro req
    simp [sendPostRequest, readConfig, emptyDoc, durRangeInvalid, intRangeInvalid,
      ConfigDoc.isEmpty]

/-- Claim C4 as amended: for every configuration document that is not the
empty object and whose numeric fields satisfy both range invariant groups, a
missing or empty `shockerID`, `OpenShockToken`, or `customName` makes the
trigger log and pop up the MissingRequiredField diagnostic and build no
request: no draw and no dispatch occurs. -/
theorem missing_required_field_reported (d : ConfigDoc) (eI eD : Nat)
    (hne : d.isEmpty = false)
    (hdur : ¬(d.minDuration.getD 300 < 300 ∨ d.maxDuration.getD 30000 > 30000 ∨
      d.minDuration.getD 300 > d.maxDuration.getD 30000))
    (hint : ¬(d.minIntensity.getD 1 < 1 ∨ d.maxIntensity.getD 100 > 100 ∨
      d.minIntensity.getD 1 > d.maxIntensity.getD 100))
    (hmiss : d.shockerID.getD "" = "" ∨ d.openShockToken.getD "" = "" ∨
      d.customName.getD "" = "") :
    sendPostRequest (.doc d) eI eD =
      [.writeReadme, .openConfigFile, .logError missingFieldsLog,
        .popup missingFieldsPopup] ∧
    (∀ req, Effect.dispatch req ∉ sendPostRequest (.doc d) eI eD) ∧
    (∀ lo hi v, Effect.draw lo hi v ∉ sendPostRequest (.doc d) eI eD) := by
  have hb1 : durRangeInvalid d = false := by
    simp only [durRangeInvalid, Bool.or_eq_false_iff, decide_eq_false_iff_not]
    omega
  have hb2 : intRangeInvalid d = false := by
    simp only [intRangeInvalid, Bool.or_eq_false_iff, decide_eq_false_iff_not]
    omega
  have hmain : sendPostRequest (.doc d) eI eD =
      [.writeReadme, .openConfigFile, .logError missingFieldsLog,
        .popup missingFieldsPopup] := by
    simp [sendPostRequest, readConfig, hb1, hb2, hne, hmiss]
  refine ⟨hmain, ?_, ?_⟩
  · intro req
    rw [hmain]
    simp
  · intro lo hi v
    rw [hmain]
    simp

/-- Witness for the amended claim C4: a nonempty document carrying only
`minDuration = 500` has all required strings missing and triggers the
MissingRequiredField diagnostic without any dispatch or draw. -/
theorem missing_required_field_reported_witness :
    sendPostRequest (.doc ⟨none, none, none, some 500, none, none, none, none, 0⟩) 0 0 =
      [.writeReadme, .openConfigFile, .logError missingFieldsLog,
        .popup missingFieldsPopup] ∧
    (∀ req, Effect.dispatch req ∉
      sendPostRequest (.doc ⟨none, none, none, some 500, none, none, none, none, 0⟩) 0 0) ∧
    (∀ lo hi v, Effect.draw lo hi v ∉
      sendPostRequest (.doc ⟨none, none, none, some 500, none, none, none, none, 0⟩) 0 0) :=
  missing_required_field_reported ⟨none, none, none, some 500, none, none, none, none, 0⟩
    0 0 (by decide) (by decide) (by decide) (by decide)

/-- Claim C5 counterexample: four inputs failing for four different reasons —
missing file, malformed JSON, invalid duration range, invalid intensity
range — all make `readConfig` return the same empty sentinel, so the value
the caller receives cannot distinguish the failure kinds. -/
theorem load_failures_share_result :
    (readConfig .missingFile).2 = none ∧
    (readConfig (.malformedJson "syntax error at line 1")).2 = none ∧
    (readConfig (.doc ⟨none, none, none, some 100, none, none, none, none, 0⟩)).2 = none ∧
    (readConfig (.doc ⟨none, none, none, none, none, some 0, none, none, 0⟩)).2 = none ∧
    (readConfig .missingFile).2 =
      (readConfig (.malformedJson "syntax error at line 1")).2 ∧
    (readConfig (.malformedJson "syntax error at line 1")).2 =
      (readConfig (.doc ⟨none, none, none, some 100, none, none, none, none, 0⟩)).2 ∧
    (readConfig (.doc ⟨none, none, none, some 100, none, none, none, none, 0⟩)).2 =
      (readConfig (.doc ⟨none, none, none, none, none, some 0, none, none, 0⟩)).2 :=
  ⟨rfl, rfl, rfl, rfl, rfl, rfl, rfl⟩

/-- Claim C5 as amended: the return value of `readConfig` is the same empty
sentinel for every failure kind, so the caller cannot tell them apart from
the result; the kinds are distinguished only by the diagnostics `readConfig`
itself emits — the four log messages are pairwise distinct, while the popups
separate the missing-file case but conflate the malformed-JSON,
invalid-duration, and invalid-intensity cases. -/
theorem load_failures_distinguished_only_internally :
    ((readConfig .missingFile).2 = none ∧
      (readConfig (.malformedJson "syntax error at line 1")).2 = none ∧
      (readConfig (.doc ⟨none, none, none, some 100, none, none, none, none, 0⟩)).2 = none ∧
      (readConfig (.doc ⟨none, none, none, none, none, some 0, none, none, 0⟩)).2 = none) ∧
    (Effect.logError missingFileLog ∈ (readConfig .missingFile).1 ∧
      Effect.logError (parseErrorLog "syntax error at line 1") ∈
        (readConfig (.malformedJson "syntax error at line 1")).1 ∧
      Effect.logError (durationRangeLog 100 30000) ∈
        (readConfig (.doc ⟨none, none, none, some 100, none, none, none, none, 0⟩)).1 ∧
      Effect.logError (intensityRangeLog 0 100) ∈
        (readConfig (.doc ⟨none, none, none, none, none, some 0, none, none, 0⟩)).1) ∧
    (missingFileLog ≠ parseErrorLog "syntax error at line 1" ∧
      missingFileLog ≠ durationRangeLog 100 30000 ∧
      missingFileLog ≠ intensityRangeLog 0 100 ∧
      parseErrorLog "syntax error at line 1" ≠ durationRangeLog 100 30000 ∧
      parseErrorLog "syntax error at line 1" ≠ intensityRangeLog 0 100 ∧
      durationRangeLog 100 30000 ≠ intensityRangeLog 0 100) ∧
    (Effect.popup missingFilePopup ∈ (readConfig .missingFile).1 ∧
      Effect.popup invalidConfigPopup ∈
        (readConfig (.malformedJson "syntax error at line 1")).1 ∧
      Effect.popup invalidConfigPopup ∈
        (readConfig (.doc ⟨none, none, none, some 100, none, none, none, none, 0⟩)).1 ∧
      Effect.popup invalidConfigPopup ∈
        (readConfig (.doc ⟨none, none, none, none, none, some 0, none, none, 0⟩)).1 ∧
      missingFilePopup ≠ invalidConfigPopup) := by
  refine ⟨⟨rfl, rfl, rfl, rfl⟩,
    ⟨.tail _ (.tail _ (.head _)), .tail _ (.tail _ (.head _)),
      .tail _ (.tail _ (.head _)), .tail _ (.tail _ (.head _))⟩,
    ⟨by decide, by decide, by decide, by decide, by decide, by decide⟩,
    ⟨.tail _ (.tail _ (.tail _ (.head _))), .tail _ (.tail _ (.tail _ (.head _))),
      .tail _ (.tail _ (.tail _ (.head _))), .tail _ (.tail _ (.tail _ (.head _))),
      by decide⟩⟩

/-- Claim C6: the empty JSON object `{}` parses, passes the range checks, and
is returned by `readConfig` — but it is as empty as the failure sentinel, so
the trigger's emptiness check exits silently: no popup, no log, no draw, no
dispatch, even though every required field is absent. -/
theorem empty_object_silent_return (eI eD : Nat) :
    readConfig (.doc emptyDoc) = ([.writeReadme, .openConfigFile], some emptyDoc) ∧
    jsonEmpty (readConfig (.doc emptyDoc)).2 = true ∧
    jsonEmpty (readConfig .missingFile).2 = true ∧
    sendPostRequest (.doc emptyDoc) eI eD = [.writeReadme, .openConfigFile] :=
  ⟨rfl, rfl, rfl, rfl⟩

/-- Claim C7: on a dispatching trigger, an absent or empty `endpointDomain`
yields the request URL `https://api.openshock.app/2/shockers/control`, and a
non-empty `endpointDomain` value `dom` yields `https://dom/2/shockers/control`. -/
theorem endpoint_domain_determines_url (d : ConfigDoc) (eI eD : Nat)
    (hdur : ¬(d.minDuration.getD 300 < 300 ∨ d.maxDuration.getD 30000 > 30000 ∨
      d.minDuration.getD 300 > d.maxDuration.getD 30000))
    (hint : ¬(d.minIntensity.getD 1 < 1 ∨ d.maxIntensity.getD 100 > 100 ∨
      d.minIntensity.getD 1 > d.maxIntensity.getD 100))
    (hs : d.shockerID.getD "" ≠ "") (ht : d.openShockToken.getD "" ≠ "")
    (hc : d.customName.getD "" ≠ "") :
    (∃ req, Effect.dispatch req ∈ sendPostRequest (.doc d) eI eD) ∧
    (∀ req, Effect.dispatch req ∈ sendPostRequest (.doc d) eI eD →
      req.url = if d.endpointDomain.getD "" = ""
        then "https://api.openshock.app/2/shockers/control"
        else "https://" ++ d.endpointDomain.getD "" ++ "/2/shockers/control") := by
  have hb1 : durRangeInvalid d = false := by
    simp only [durRangeInvalid, Bool.or_eq_false_iff, decide_eq_false_iff_not]
    omega
  have hb2 : intRangeInvalid d = false := by
    simp only [intRangeInvalid, Bool.or_eq_false_iff, decide_eq_false_iff_not]
    omega
  have hne : d.shockerID.isNone = false := by
    cases hsk : d.shockerID with
    | none => rw [hsk] at hs; simp at hs
    | some str => rfl
  simp only [sendPostRequest, readConfig, hb1, hb2, Bool.false_eq_true, if_false,
    ConfigDoc.isEmpty, hne, Bool.false_and, hs, ht, hc, false_or, or_false, if_neg,
    not_false_iff]
  constructor
  · exact ⟨_, .tail _ (.tail _ (.tail _ (.tail _ (.head _))))⟩
  · intro req hmem
    simp only [List.cons_append, List.nil_append, List.mem_cons, List.not_mem_nil,
      or_false] at hmem
    rcases hmem with h | h | h | h | h | h
    · exact Effect.noConfusion h
    · exact Effect.noConfusion h
    · exact Effect.noConfusion h
    · exact Effect.noConfusion h
    · rw [Effect.dispatch.inj h]
      cases hed : d.endpointDomain with
      | none => simp [hed]
      | some str =>
        by_cases hs0 : str = ""
        · subst hs0
          simp [hed]
        · simp [hed, hs0]
    · exact Effect.noConfusion h

/-- Witness for claim C7: `endpointDomain = "foo.bar"` builds the URL
`https://foo.bar/2/shockers/control`. -/
theorem endpoint_domain_determines_url_witness :
    (∃ req, Effect.dispatch req ∈ sendPostRequest
      (.doc ⟨some "abc", some "tok", some "X", none, none, none, none,
        some "foo.bar", 0⟩) 0 0) ∧
    (∀ req, Effect.dispatch req ∈ sendPostRequest
      (.doc ⟨some "abc", some "tok", some "X", none, none, none, none,
        some "foo.bar", 0⟩) 0 0 →
      req.url = "https://foo.bar/2/shockers/control") := by
  have h := endpoint_domain_determines_url
    ⟨some "abc", some "tok", some "X", none, none, none, none, some "foo.bar", 0⟩ 0 0
    (by decide) (by decide) (by decide) (by decide) (by decide)
  simpa using h

/-- Claim C8: every dispatched request is a POST carrying exactly the headers
Content-Type: application/json, accept: application/json, and OpenShockToken
with the configured token, and its JSON body is the object
`(shocks = [(id, "Shock", intensity, duration, exclusive = true)],
customName)` with intensity and duration being exactly the drawn integers. -/
theorem dispatched_request_shape (d : ConfigDoc) (eI eD : Nat)
    (hdur : ¬(d.minDuration.getD 300 < 300 ∨ d.maxDuration.getD 30000 > 30000 ∨
      d.minDuration.getD 300 > d.maxDuration.getD 30000))
    (hint : ¬(d.minIntensity.getD 1 < 1 ∨ d.maxIntensity.getD 100 > 100 ∨
      d.minIntensity.getD 1 > d.maxIntensity.getD 100))
    (hs : d.shockerID.getD "" ≠ "") (ht : d.openShockToken.getD "" ≠ "")
    (hc : d.customName.getD "" ≠ "") :
    (∃ req, Effect.dispatch req ∈ sendPostRequest (.doc d) eI eD) ∧
    (∀ req, Effect.dispatch req ∈ sendPostRequest (.doc d) eI eD →
      req.method = "POST" ∧
      req.headers = [("Content-Type", "application/json"),
        ("accept", "application/json"), ("OpenShockToken", d.openShockToken.getD "")] ∧
      req.body = requestBody (d.shockerID.getD "") (d.customName.getD "")
        (generateRandomValue eI (d.minIntensity.getD 1) (d.maxIntensity.getD 100))
        (generateRandomValue eD (d.minDuration.getD 300) (d.maxDuration.getD 30000))) ∧
    Effect.draw (d.minIntensity.getD 1) (d.maxIntensity.getD 100)
      (generateRandomValue eI (d.minIntensity.getD 1) (d.maxIntensity.getD 100)) ∈
      sendPostRequest (.doc d) eI eD ∧
    Effect.draw (d.minDuration.getD 300) (d.maxDuration.getD 30000)
      (generateRandomValue eD (d.minDuration.getD 300) (d.maxDuration.getD 30000)) ∈
      sendPostRequest (.doc d) eI eD := by
  have hb1 : durRangeInvalid d = false := by
    simp only [durRangeInvalid, Bool.or_eq_false_iff, decide_eq_false_iff_not]
    omega
  have hb2 : intRangeInvalid d = false := by
    simp only [intRangeInvalid, Bool.or_eq_false_iff, decide_eq_false_iff_not]
    omega
  have hne : d.shockerID.isNone = false := by
    cases hsk : d.shockerID with
    | none => rw [hsk] at hs; simp at hs
    | some str => rfl
  simp only [sendPostRequest, readConfig, hb1, hb2, Bool.false_eq_true, if_false,
    ConfigDoc.isEmpty, hne, Bool.false_and, hs, ht, hc, false_or, or_false, if_neg,
    not_false_iff]
  refine ⟨⟨_, .tail _ (.tail _ (.tail _ (.tail _ (.head _))))⟩, ?_,
    .tail _ (.tail _ (.head _)), .tail _ (.tail _ (.tail _ (.head _)))⟩
  intro req hmem
  simp only [List.cons_append, List.nil_append, List.mem_cons, List.not_mem_nil,
    or_false] at hmem
  rcases hmem with h | h | h | h | h | h
  · exact Effect.noConfusion h
  · exact Effect.noConfusion h
  · exact Effect.noConfusion h
  · exact Effect.noConfusion h
  · rw [Effect.dispatch.inj h]
    exact ⟨rfl, rfl, rfl⟩
  · exact Effect.noConfusion h

/-- Witness for claim C8: with entropy 0 the dispatched request is a POST with
the three headers, token `"tok"`, and body `requestBody "abc" "X" 1 300`. -/
theorem dispatched_request_shape_witness :
    (∃ req, Effect.dispatch req ∈ sendPostRequest
      (.doc ⟨some "abc", some "tok", some "X", none, none, none, none, none, 0⟩) 0 0) ∧
    (∀ req, Effect.dispatch req ∈ sendPostRequest
      (.doc ⟨some "abc", some "tok", some "X", none, none, none, none, none, 0⟩) 0 0 →
      req.method = "POST" ∧
      req.headers = [("Content-Type", "application/json"),
        ("accept", "application/json"), ("OpenShockToken", "tok")] ∧
      req.body = requestBody "abc" "X" 1 300) ∧
    Effect.draw 1 100 1 ∈ sendPostRequest
      (.doc ⟨some "abc", some "tok", some "X", none, none, none, none, none, 0⟩) 0 0 ∧
    Effect.draw 300 30000 300 ∈ sendPostRequest
      (.doc ⟨some "abc", some "tok", some "X", none, none, none, none, none, 0⟩) 0 0 := by
  have h := dispatched_request_shape
    ⟨some "abc", some "tok", some "X", none, none, none, none, none, 0⟩ 0 0
    (by decide) (by decide) (by decide) (by decide) (by decide)
  simpa [generateRandomValue] using h

/-- Case analysis of `readConfig` on a parsed document: it fails on the
duration group, fails on the intensity group, or returns the document. -/
theorem readConfig_doc_cases (d : ConfigDoc) :
    readConfig (.doc d) =
      ([.writeReadme, .openConfigFile,
        .logError (durationRangeLog (d.minDuration.getD 300) (d.maxDuration.getD 30000)),
        .popup invalidConfigPopup], none) ∨
    readConfig (.doc d) =
      ([.writeReadme, .openConfigFile,
        .logError (intensityRangeLog (d.minIntensity.getD 1) (d.maxIntensity.getD 100)),
        .popup invalidConfigPopup], none) ∨
    readConfig (.doc d) = ([.writeReadme, .openConfigFile], some d) := by
  by_cases hb1 : durRangeInvalid d = true
  · left
    simp [readConfig, hb1]
  · by_cases hb2 : intRangeInvalid d = true
    · right; left
      simp [readConfig, hb1, hb2]
    · right; right
      simp [readConfig, hb1, hb2]

/-- Claim C9: on every load attempt — the file missing, the JSON malformed, or
a document parsed — the trace of `readConfig` starts with the readme write
followed by the attempt to open `settings.json`, so the documentation
artifact is (re)written before the configuration file is opened; and in the
malformed-JSON case the load fails with the parse diagnostic and the empty
sentinel, and the trigger never draws a value or dispatches a request. -/
theorem readme_written_before_config_open (input : ParseInput) (s : String) (eI eD : Nat) :
    (∃ rest, (readConfig input).1 = Effect.writeReadme :: Effect.openConfigFile :: rest) ∧
    readConfig (.malformedJson s) =
      ([.writeReadme, .openConfigFile, .logError (parseErrorLog s),
        .popup invalidConfigPopup], none) ∧
    (∀ req, Effect.dispatch req ∉ sendPostRequest (.malformedJson s) eI eD) ∧
    (∀ lo hi v, Effect.draw lo hi v ∉ sendPostRequest (.malformedJson s) eI eD) := by
  refine ⟨?_, rfl, ?_, ?_⟩
  · cases input with
    | missingFile => exact ⟨_, rfl⟩
    | malformedJson t => exact ⟨_, rfl⟩
    | doc d =>
      rcases readConfig_doc_cases d with h | h | h <;> rw [h] <;> exact ⟨_, rfl⟩
  · intro req
    simp [sendPostRequest, readConfig]
  · intro lo hi v
    simp [sendPostRequest, readConfig]

/-- Claim C10: a document carrying only the three required strings gets the
defaults 300/30000 for duration and 1/100 for intensity, loads successfully,
and dispatches to `https://api.openshock.app/2/shockers/control`: the trigger
draws from [1, 100] and [300, 30000] and sends the default-URL request. -/
theorem minimal_config_defaults_applied (sid tok name : String) (eI eD : Nat)
    (hs : sid ≠ "") (ht : tok ≠ "") (hc : name ≠ "") :
    readConfig (.doc ⟨some sid, some tok, some name, none, none, none, none, none, 0⟩) =
      ([.writeReadme, .openConfigFile],
        some ⟨some sid, some tok, some name, none, none, none, none, none, 0⟩) ∧
    sendPostRequest (.doc ⟨some sid, some tok, some name, none, none, none, none, none, 0⟩)
        eI eD =
      [.writeReadme, .openConfigFile,
        .draw 1 100 (generateRandomValue eI 1 100),
        .draw 300 30000 (generateRandomValue eD 300 30000),
        .dispatch
          { method := "POST"
            url := "https://api.openshock.app/2/shockers/control"
            headers := [("Content-Type", "application/json"),
              ("accept", "application/json"), ("OpenShockToken", tok)]
            body := requestBody sid name (generateRandomValue eI 1 100)
              (generateRandomValue eD 300 30000) },
        .popup ("Duration: " ++ toString ((generateRandomValue eD 300 30000).tdiv 1000) ++
          "s" ++ "     " ++ "Intensity: " ++ toString (generateRandomValue eI 1 100))] := by
  constructor
  · simp [readConfig, durRangeInvalid, intRangeInvalid]
  · simp [sendPostRequest, readConfig, durRangeInvalid, intRangeInvalid,
      ConfigDoc.isEmpty, hs, ht, hc]

/-- Witness for claim C10: the spec's example strings with entropy 0. -/
theorem minimal_config_defaults_applied_witness :
    readConfig (.doc ⟨some "abc", some "tok", some "X", none, none, none, none, none, 0⟩) =
      ([.writeReadme, .openConfigFile],
        some ⟨some "abc", some "tok", some "X", none, none, none, none, none, 0⟩) ∧
    sendPostRequest (.doc ⟨some "abc", some "tok", some "X", none, none, none, none, none, 0⟩)
        0 0 =
      [.writeReadme, .openConfigFile,
        .draw 1 100 (generateRandomValue 0 1 100),
        .draw 300 30000 (generateRandomValue 0 300 30000),
        .dispatch
          { method := "POST"
            url := "https://api.openshock.app/2/shockers/control"
            headers := [("Content-Type", "application/json"),
              ("accept", "application/json"), ("OpenShockToken", "tok")]
            body := requestBody "abc" "X" (generateRandomValue 0 1 100)
              (generateRandomValue 0 300 30000) },
        .popup ("Duration: " ++ toString ((generateRandomValue 0 300 30000).tdiv 1000) ++
          "s" ++ "     " ++ "Intensity: " ++ toString (generateRandomValue 0 1 100))] :=
  minimal_config_defaults_applied "abc" "tok" "X" 0 0 (by decide) (by decide) (by decide)

end OpenShockGD
